import Mathlib

/-
Verification development for the CA traffic simulator
(kingilsildor/CLS-Complex_System_Simulation).

Shallow embedding of the simulation engine: cell constants, the Grid
lattice builder (src/src/grid.py), the Car update rule (src/src/car.py),
the DensityTracker metrics (src/src/density.py), the jam-cluster analyzer
(src/src/grid.py) and the experiment driver loop (src/src/experiment.py).
Coordinates are Int pairs; toroidal wrap uses Int emod, which matches the
Python modulo on a positive modulus. Cell codes are Nat.
-/

set_option maxRecDepth 40000

namespace TrafficSim

/-- Modelled from the spec: the constants module imported by car.py, grid.py
and density.py (VERTICAL_ROAD_VALUE_LEFT, ..., INTERSECTION_DRIVE, CAR_HEAD,
ROAD_CELLS, INTERSECTION_CELLS, FREE_MOVEMENT, FIXED_DESTINATION) is absent
from src (the utils.py present there is a stale two-value variant that does
not define these names). The spec (section 3) fixes the taxonomy: BLOCK, the
four directional road kinds, INTERSECTION and CAR_HEAD are pairwise disjoint
codes. The concrete numbers below are arbitrary distinct naturals. -/
def BLOCKS_VALUE : Nat := 0

def VERTICAL_ROAD_VALUE_LEFT : Nat := 1

def VERTICAL_ROAD_VALUE_RIGHT : Nat := 2

def HORIZONTAL_ROAD_VALUE_LEFT : Nat := 3

def HORIZONTAL_ROAD_VALUE_RIGHT : Nat := 4

def INTERSECTION_DRIVE : Nat := 5

def CAR_HEAD : Nat := 6

def ROAD_CELLS : List Nat :=
  [VERTICAL_ROAD_VALUE_LEFT, VERTICAL_ROAD_VALUE_RIGHT,
   HORIZONTAL_ROAD_VALUE_LEFT, HORIZONTAL_ROAD_VALUE_RIGHT]

def INTERSECTION_CELLS : List Nat := [INTERSECTION_DRIVE]

/-- Modelled from the spec: rotary-discipline flags; car.py restricts the
flag to the values 0 and 1 (set_car_rotary_flag). -/
def FREE_MOVEMENT : Nat := 0

def FIXED_DESTINATION : Nat := 1

abbrev Pos := Int × Int

/-- Pointwise update of a lattice function; models one numpy cell write. -/
def set_cell (g : Pos → Nat) (p : Pos) (v : Nat) : Pos → Nat :=
  fun q => if q = p then v else g q

/-- Car.get_boundary_pos (car.py:67-91): wrap both coordinates modulo the
grid size. Int emod agrees with the Python modulo for a positive modulus. -/
def get_boundary_pos (size : Int) (x y : Int) : Pos :=
  (x % size, y % size)

/-- The Grid state (grid.py:28-70).  grid is the dynamic lattice,
road_layout the immutable background copied from it at construction.
In the source, underlying_grid receives exactly the same writes as grid
during construction, so one lattice function stands for both. -/
structure GridS where
  size : Int
  grid : Pos → Nat
  road_layout : Pos → Nat
  max_speed : Nat
  rotary_dict : List (List Pos)
  rotary_method : Nat

/-- The Car state (car.py:22-65).  road_destination is None until the car
enters a rotary under FIXED_DESTINATION. -/
structure CarS where
  head_position : Pos
  road_type : Nat
  on_rotary : Bool
  flag : Nat
  road_destination : Option Nat
  max_speed : Nat
deriving DecidableEq

/-- Car.get_infront (car.py:93-108): the dynamic cell value at a position. -/
def get_infront (g : GridS) (p : Pos) : Nat := g.grid p

/-- Car.get_diagonal (car.py:110-138): the cell checked before entering a
rotary.  When road_type matches no directional branch the source leaves the
queried position unchanged. -/
def get_diagonal (g : GridS) (rt : Nat) (p : Pos) : Nat :=
  let pos :=
    if rt = VERTICAL_ROAD_VALUE_RIGHT then get_boundary_pos g.size p.1 (p.2 - 1)
    else if rt = VERTICAL_ROAD_VALUE_LEFT then get_boundary_pos g.size p.1 (p.2 + 1)
    else if rt = HORIZONTAL_ROAD_VALUE_RIGHT then get_boundary_pos g.size (p.1 - 1) p.2
    else if rt = HORIZONTAL_ROAD_VALUE_LEFT then get_boundary_pos g.size (p.1 + 1) p.2
    else p
  g.grid pos

/-- Car.get_right (car.py:140-171): the exit cell and the road type adopted
on exit.  none models the source falling through all branches (its assert
would fail there). -/
def get_right (size : Int) (rt : Nat) (p : Pos) : Option (Pos × Nat) :=
  if rt = VERTICAL_ROAD_VALUE_RIGHT then
    some (get_boundary_pos size p.1 (p.2 + 1), HORIZONTAL_ROAD_VALUE_RIGHT)
  else if rt = VERTICAL_ROAD_VALUE_LEFT then
    some (get_boundary_pos size p.1 (p.2 - 1), HORIZONTAL_ROAD_VALUE_LEFT)
  else if rt = HORIZONTAL_ROAD_VALUE_RIGHT then
    some (get_boundary_pos size (p.1 + 1) p.2, VERTICAL_ROAD_VALUE_LEFT)
  else if rt = HORIZONTAL_ROAD_VALUE_LEFT then
    some (get_boundary_pos size (p.1 - 1) p.2, VERTICAL_ROAD_VALUE_RIGHT)
  else none

/-- The next cell one unit step in the travel direction of road_type, as
computed identically inside _move_straight (car.py:195-202) and
_move_rotary (car.py:242-253).  When road_type matches no branch the
candidate position stays where it was. -/
def next_in_direction (size : Int) (rt : Nat) (cur : Pos) : Pos :=
  if rt = VERTICAL_ROAD_VALUE_RIGHT then get_boundary_pos size (cur.1 - 1) cur.2
  else if rt = VERTICAL_ROAD_VALUE_LEFT then get_boundary_pos size (cur.1 + 1) cur.2
  else if rt = HORIZONTAL_ROAD_VALUE_RIGHT then get_boundary_pos size cur.1 (cur.2 + 1)
  else if rt = HORIZONTAL_ROAD_VALUE_LEFT then get_boundary_pos size cur.1 (cur.2 - 1)
  else cur

/-- The road type adopted after a ring step (_move_rotary, car.py:242-253);
none models the assert failing on a non-directional road type. -/
def rotary_turn (rt : Nat) : Option Nat :=
  if rt = VERTICAL_ROAD_VALUE_RIGHT then some HORIZONTAL_ROAD_VALUE_LEFT
  else if rt = VERTICAL_ROAD_VALUE_LEFT then some HORIZONTAL_ROAD_VALUE_RIGHT
  else if rt = HORIZONTAL_ROAD_VALUE_RIGHT then some VERTICAL_ROAD_VALUE_RIGHT
  else if rt = HORIZONTAL_ROAD_VALUE_LEFT then some VERTICAL_ROAD_VALUE_LEFT
  else none

/-- Car.set_car_location (car.py:330-345): write CAR_HEAD at the new
position, then restore the background at the old position (that write order
is the numpy order; the later write wins on a collision). -/
def set_car_location (c : CarS) (g : GridS) (new_pos : Pos) : CarS × GridS :=
  let old_pos := c.head_position
  let g1 := { g with grid := set_cell g.grid new_pos CAR_HEAD }
  let g2 := { g1 with grid := set_cell g1.grid old_pos (g.road_layout old_pos) }
  ({ c with head_position := new_pos }, g2)

/-- Car.set_random_desination (car.py:384-388).  The draw argument models
the value of np.random.choice(ROAD_CELLS) after np.random.seed(int(time.time())):
the source reseeds the global RNG from the wall clock, so the draw is a
function of the current time, not of the run seed. -/
def set_random_desination (c : CarS) (draw : Nat) : CarS :=
  if c.flag = FIXED_DESTINATION then { c with road_destination := some draw } else c

/-- The post-loop tail of _move_straight (car.py:226-230). -/
def move_straight_finish (c : CarS) (g : GridS) (last_open : Pos) (steps : Nat) :
    Bool × Nat × CarS × GridS :=
  if last_open ≠ c.head_position then
    let r := set_car_location c g last_open
    (true, steps, r.1, r.2)
  else (false, steps, c, g)

/-- The body of the for-loop of _move_straight (car.py:194-224), with the
loop counter as fuel.  draw models the destination draw performed on rotary
entry (see set_random_desination). -/
def move_straight_loop (g : GridS) (c : CarS) (draw : Nat) :
    Nat → Pos → Pos → Nat → Bool × Nat × CarS × GridS
  | 0, _, last_open, steps => move_straight_finish c g last_open steps
  | fuel + 1, cur, last_open, steps =>
    let np2 := next_in_direction g.size c.road_type cur
    let possible_cell := get_infront g np2
    let diagonal_cell := get_diagonal g c.road_type np2
    if possible_cell = CAR_HEAD then
      move_straight_finish c g last_open steps
    else if possible_cell ∈ INTERSECTION_CELLS ∧ diagonal_cell = CAR_HEAD then
      move_straight_finish c g last_open steps
    else
      let last_open2 := if possible_cell ∈ ROAD_CELLS then np2 else last_open
      let cur2 := np2
      let steps2 := steps + 1
      if possible_cell ∈ INTERSECTION_CELLS then
        let c1 := { c with on_rotary := true }
        let c2 := set_random_desination c1 draw
        let r := set_car_location c2 g cur2
        (true, steps2, r.1, r.2)
      else
        move_straight_loop g c draw fuel cur2 last_open2 steps2

/-- Car.move._move_straight (car.py:179-230). -/
def move_straight (c : CarS) (g : GridS) (draw : Nat) : Bool × Nat × CarS × GridS :=
  move_straight_loop g c draw c.max_speed c.head_position c.head_position 0

/-- Car.move._move_rotary (car.py:232-269): one ring step.  Under
FIXED_DESTINATION the step is additionally gated on the next cell value
matching the committed destination (car.py:260-264). -/
def move_rotary (c : CarS) (g : GridS) : Bool × CarS × GridS :=
  match rotary_turn c.road_type with
  | none => (false, c, g)
  | some possible_road_type =>
    let possible_pos := next_in_direction g.size c.road_type c.head_position
    let possible_cell := get_infront g possible_pos
    if possible_cell = CAR_HEAD then (false, c, g)
    else if some possible_cell ≠ c.road_destination ∧ c.flag = FIXED_DESTINATION then
      (false, c, g)
    else if possible_cell ∈ ROAD_CELLS ∨ possible_cell ∈ INTERSECTION_CELLS then
      let r := set_car_location c g possible_pos
      (true, { r.1 with road_type := possible_road_type }, r.2)
    else (false, c, g)

/-- Car.move._exit_rotary (car.py:271-297): leave the rotary through the
right-of-current cell. -/
def exit_rotary (c : CarS) (g : GridS) : Bool × CarS × GridS :=
  match get_right g.size c.road_type c.head_position with
  | none => (false, c, g)
  | some (possible_pos, road_type) =>
    let possible_cell := get_infront g possible_pos
    if possible_cell ∉ ROAD_CELLS ∧ possible_cell ∉ INTERSECTION_CELLS then (false, c, g)
    else if possible_cell = CAR_HEAD then (false, c, g)
    else if c.flag = FIXED_DESTINATION ∧ some possible_cell ≠ c.road_destination then
      (false, c, g)
    else
      let c1 := if possible_cell ∉ INTERSECTION_CELLS then { c with on_rotary := false } else c
      let r := set_car_location c1 g possible_pos
      (true, { r.1 with road_type := road_type }, r.2)

/-- Car.move (car.py:173-324): dispatch, then translate success into the
returned step count (0 if not moved, 1 if the car ends the tick on a rotary,
otherwise the straight step count -- which is 0 on the rotary paths). -/
def Car.move (c : CarS) (g : GridS) (draw : Nat) : CarS × GridS × Nat :=
  if c.on_rotary then
    let r :=
      if c.flag = FIXED_DESTINATION ∨ c.flag = FREE_MOVEMENT then
        let e := exit_rotary c g
        if e.1 then e else move_rotary c g
      else move_rotary c g
    let success := r.1
    let c1 := r.2.1
    let g1 := r.2.2
    if !success then (c1, g1, 0)
    else if c1.on_rotary then (c1, g1, 1)
    else (c1, g1, 0)
  else
    let r := move_straight c g draw
    let success := r.1
    let steps := r.2.1
    let c1 := r.2.2.1
    let g1 := r.2.2.2
    if !success then (c1, g1, 0)
    else if c1.on_rotary then (c1, g1, 1)
    else (c1, g1, steps)

/-- Python range(a, b, step) as a list of naturals (step assumed positive
in every call site of the source). -/
def pyRange (a b step : Nat) : List Nat :=
  if step = 0 then [] else List.range' a ((b - a + step - 1) / step) step

/-- Grid.create_vertical_lanes (grid.py:89-109); lane_width = 2,
lane_devider = 1. -/
def create_vertical_lanes (size blocks : Nat) (g0 : Pos → Nat) : Pos → Nat :=
  let half_block := blocks / 2
  (pyRange half_block size blocks).foldl (fun g col =>
    let left := col
    let right := min (col + 2) size
    (List.range size).foldl (fun g x =>
      (pyRange left right 1).foldl (fun g y =>
        if g ((x : Int), (y : Int)) = BLOCKS_VALUE then
          if y - left < 1 then set_cell g ((x : Int), (y : Int)) VERTICAL_ROAD_VALUE_LEFT
          else set_cell g ((x : Int), (y : Int)) VERTICAL_ROAD_VALUE_RIGHT
        else g) g) g) g0

/-- Grid.create_horizontal_lanes (grid.py:111-131). -/
def create_horizontal_lanes (size blocks : Nat) (g0 : Pos → Nat) : Pos → Nat :=
  let half_block := blocks / 2
  (pyRange half_block size blocks).foldl (fun g row =>
    let top := row
    let bottom := min (row + 2) size
    (pyRange top bottom 1).foldl (fun g x =>
      (List.range size).foldl (fun g y =>
        if g ((x : Int), (y : Int)) = BLOCKS_VALUE then
          if x - top < 1 then set_cell g ((x : Int), (y : Int)) HORIZONTAL_ROAD_VALUE_LEFT
          else set_cell g ((x : Int), (y : Int)) HORIZONTAL_ROAD_VALUE_RIGHT
        else g) g) g) g0

/-- Grid.create_intersections (grid.py:133-151): overwrite each 2 by 2
crossing with INTERSECTION_DRIVE (the numpy slice assignment clips at the
array bounds) and append its ring of four cells to rotary_dict (the ring
coordinates are taken unclipped, exactly as in the source). -/
def create_intersections (size blocks : Nat) (g0 : Pos → Nat) :
    (Pos → Nat) × List (List Pos) :=
  let half_block := blocks / 2
  (pyRange half_block size blocks).foldl (fun acc i =>
    (pyRange half_block size blocks).foldl (fun (acc : (Pos → Nat) × List (List Pos)) j =>
      let g2 := (pyRange i (min (i + 2) size) 1).foldl (fun g x =>
        (pyRange j (min (j + 2) size) 1).foldl (fun g y =>
          set_cell g ((x : Int), (y : Int)) INTERSECTION_DRIVE) g) acc.1
      let ring : List Pos :=
        [((i : Int), (j : Int)), ((i : Int), (j : Int) + 1),
         ((i : Int) + 1, (j : Int) + 1), ((i : Int) + 1, (j : Int))]
      (g2, acc.2 ++ [ring])) acc) (g0, [])

/-- Grid.__init__ (grid.py:28-70): build roads then intersections from an
all-BLOCKS lattice; road_layout is a copy of the built grid; no validation
of any argument is performed. -/
def Grid.init (grid_size blocks_size rotary_method max_speed : Nat) : GridS :=
  let g1 := create_vertical_lanes grid_size blocks_size (fun _ => BLOCKS_VALUE)
  let g2 := create_horizontal_lanes grid_size blocks_size g1
  let r := create_intersections grid_size blocks_size g2
  { size := (grid_size : Int), grid := r.1, road_layout := r.1,
    max_speed := max_speed, rotary_dict := r.2, rotary_method := rotary_method }

/-- Grid.__init__ with the max_speed argument left to its Python default 2
(grid.py:28-30). -/
def Grid.initDefault (grid_size blocks_size rotary_method : Nat) : GridS :=
  Grid.init grid_size blocks_size rotary_method 2

/-- The geometry precondition stated by the spec (section 4.1):
N at least 2B, B even and at least 4, and N mod B in {0, B/2}. -/
def geom_valid (N B : Nat) : Prop :=
  2 * B ≤ N ∧ B % 2 = 0 ∧ 4 ≤ B ∧ (N % B = 0 ∨ N % B = B / 2)

instance (N B : Nat) : Decidable (geom_valid N B) := by
  unfold geom_valid; infer_instance

/-- Follows the wording of the spec (section 4.1): build validates the
geometry preconditions and fails (BadGeometry, modelled as none) when they
are violated; otherwise it constructs the grid.  This definition is written
from the words of the spec, to be compared with Grid.init, which is the
embedding of the source constructor. -/
def grid_build_spec (grid_size blocks_size rotary_method max_speed : Nat) :
    Option GridS :=
  if geom_valid grid_size blocks_size then
    some (Grid.init grid_size blocks_size rotary_method max_speed)
  else none

/-- Grid construction as performed by Simulation_2D_NoUI.__init__
(simulation.py:794-798): keyword arguments grid_size, blocks_size :=
road_length and rotary_method; max_speed is not passed, so the Python
default 2 applies.  The configured road_max_speed is received by the driver
but never forwarded to the Grid. -/
def simulation_2d_noui_grid (grid_size road_length rotary_method road_max_speed : Nat) :
    GridS :=
  let _ := road_max_speed
  Grid.initDefault grid_size road_length rotary_method

/-- Grid construction as performed by run_single_simulation_generic
(experiment.py:217): Grid(grid_size, road_length, max_speed) passes
max_speed into the third positional parameter, which is rotary_method, so
the grid max_speed again takes the default 2. -/
def experiment_temp_grid (grid_size road_length max_speed : Nat) : GridS :=
  Grid.init grid_size road_length max_speed 2

/-- The personal speed ceiling chosen in Car.__init__ (car.py:56-65): a car
created with follow_limit = true adopts the grid max_speed; otherwise it
keeps a random draw from [MIN_SPEED, MAX_SPEED]. -/
def car_personal_max_speed (follow_limit : Bool) (g : GridS) (random_speed : Nat) : Nat :=
  if follow_limit then g.max_speed else random_speed

/-- Car.__init__ (car.py:22-65): reading the dynamic cell at position; a
non-drivable value raises ValueError before any grid write, so the error
branch pairs the untouched grid with the error. -/
def Car.init (g : GridS) (position : Pos) (free_rotary_method : Bool)
    (follow_limit : Bool) (random_speed : Nat) : Except String CarS × GridS :=
  let road_type := g.grid position
  if road_type ∉ ROAD_CELLS ∧ road_type ∉ INTERSECTION_CELLS then
    (Except.error "Invalid road type for the car.", g)
  else
    let g1 := { g with grid := set_cell g.grid position CAR_HEAD }
    let c : CarS :=
      { head_position := position
        road_type := road_type
        on_rotary := decide (road_type ∈ INTERSECTION_CELLS)
        flag := if free_rotary_method then FREE_MOVEMENT else FIXED_DESTINATION
        road_destination := none
        max_speed := if follow_limit then g.max_speed else random_speed }
    (Except.ok c, g1)

/-- One metric record (density.py get_metrics return dictionary); the
numeric observables are carried as rationals. -/
structure Metrics where
  total_cars : Nat
  moving_cars : Nat
  road_density : ℚ
  intersection_density : ℚ
  global_density : ℚ
  average_velocity : ℚ
  traffic_flow : ℚ
  queue_length : Nat
deriving DecidableEq

/-- DensityTracker.get_metrics (density.py:56-109).  The lines binding
car_positions, total_cars and moving_cars are missing from the src copy of
density.py; they are modelled from the spec (section 4.5): total_cars is the
number of cars and moving_cars the number of cars whose step count this tick
is positive.  cars_on_roads is initialized to 0 and never incremented in the
src copy, so road_density is always 0; cars_at_intersections is the count of
car heads on underlying intersection cells, passed in here.  The remaining
formulas are present verbatim in the source: average_velocity =
moving_cars / total_cars if total_cars > 0 else 0 (density.py:95),
traffic_flow = global_density * average_velocity (density.py:96),
queue_length = total_cars - moving_cars (density.py:97). -/
def get_metrics (road_cells intersection_cells cars_at_intersections : Nat)
    (moves : List Nat) : Metrics :=
  let total_cars : Nat := moves.length
  let moving_cars : Nat := (moves.filter (fun m => 0 < m)).length
  let cars_on_roads : Nat := 0
  let denom : ℚ := ((road_cells + intersection_cells : Nat) : ℚ)
  let road_density : ℚ := (cars_on_roads : ℚ) / denom
  let intersection_density : ℚ := (cars_at_intersections : ℚ) / denom
  let global_density : ℚ := (total_cars : ℚ) / denom
  let average_velocity : ℚ :=
    if 0 < total_cars then (moving_cars : ℚ) / (total_cars : ℚ) else 0
  let traffic_flow : ℚ := global_density * average_velocity
  let queue_length : Nat := total_cars - moving_cars
  { total_cars := total_cars, moving_cars := moving_cars,
    road_density := road_density, intersection_density := intersection_density,
    global_density := global_density, average_velocity := average_velocity,
    traffic_flow := traffic_flow, queue_length := queue_length }

/-- Follows the wording of the claim (spec section 4.5): average velocity as
total cells moved this tick divided by the total number of cars, 0 when
there are no cars.  Written from the words of the spec, to be compared with
the average_velocity field computed by get_metrics. -/
def average_velocity_claim (moves : List Nat) : ℚ :=
  if moves.length = 0 then 0 else ((moves.sum : Nat) : ℚ) / ((moves.length : Nat) : ℚ)

/-- An undirected graph as built by networkx in Grid.jammed_network: node
and edge lists, nodes recorded when first touched by an edge. -/
structure NetGraph where
  nodes : List Pos
  edges : List (Pos × Pos)
deriving DecidableEq

/-- networkx Graph.add_edge semantics: register both endpoints as nodes and
add the edge unless it (or its reverse, the graph being undirected) is
already present. -/
def add_edge (G : NetGraph) (p q : Pos) : NetGraph :=
  let ns1 := if p ∈ G.nodes then G.nodes else G.nodes ++ [p]
  let ns2 := if q ∈ ns1 then ns1 else ns1 ++ [q]
  let es := if (p, q) ∈ G.edges ∨ (q, p) ∈ G.edges then G.edges else G.edges ++ [(p, q)]
  { nodes := ns2, edges := es }

/-- The four neighbor cells probed by Grid.jammed_network (grid.py:202-213),
in source order: back, front, up, down.  The coordinates are NOT wrapped
modulo the grid size. -/
def neighbor_checks (p : Pos) : List Pos :=
  [(p.1, p.2 - 1), (p.1, p.2 + 1), (p.1 - 1, p.2), (p.1 + 1, p.2)]

/-- One neighbor probe of Grid.jammed_network: add the edge when the
neighbor is jammed too. -/
def jn_step (uniq : List Pos) (p : Pos) (G : NetGraph) (q : Pos) : NetGraph :=
  if q ∈ uniq then add_edge G p q else G

/-- Processing of one jammed cell in Grid.jammed_network: probe its four
unwrapped neighbors in source order. -/
def jn_cell (uniq : List Pos) (G : NetGraph) (p : Pos) : NetGraph :=
  (neighbor_checks p).foldl (jn_step uniq p) G

/-- Grid.jammed_network (grid.py:189-217): over the set of jammed positions,
add an edge from each jammed cell to each of its four unwrapped neighbors
that are also jammed. -/
def jammed_network (S : List Pos) : NetGraph :=
  (S.dedup).foldl (jn_cell S.dedup) { nodes := [], edges := [] }

/-- One merge step of a union-find-by-lists computation of connected
components: the components touching either endpoint of the edge are fused. -/
def comp_step (comps : List (List Pos)) (e : Pos × Pos) : List (List Pos) :=
  let touching := comps.filter (fun c => e.1 ∈ c ∨ e.2 ∈ c)
  let rest := comps.filter (fun c => ¬(e.1 ∈ c ∨ e.2 ∈ c))
  match touching with
  | [] => comps
  | _ => touching.flatten :: rest

/-- Models the networkx connected_components library call used by
Grid.analyze_cluster_sizes: start from singleton components of the nodes and
fuse along every edge. -/
def connected_components (G : NetGraph) : List (List Pos) :=
  G.edges.foldl comp_step (G.nodes.map (fun p => [p]))

/-- Sort descending, as cluster_sizes.sort(reverse=True) (grid.py:232). -/
def sort_desc (l : List Nat) : List Nat :=
  List.insertionSort (fun a b => b ≤ a) l

/-- Grid.analyze_cluster_sizes (grid.py:219-238): the component sizes of the
jammed network, sorted in descending order. -/
def analyze_cluster_sizes (G : NetGraph) : List Nat :=
  sort_desc ((connected_components G).map List.length)

/-- The toroidal neighbor cells the claim describes: coordinates taken
modulo N. -/
def toroidal_neighbors (N : Int) (p : Pos) : List Pos :=
  [(p.1, (p.2 - 1) % N), (p.1, (p.2 + 1) % N), ((p.1 - 1) % N, p.2), ((p.1 + 1) % N, p.2)]

/-- Follows the wording of the claim (spec section 4.6): build the
undirected 4-neighbor graph over the jammed cells with toroidal adjacency,
with every jammed cell as a node, compute its connected components and
return the component sizes sorted descending.  Written from the words of
the spec, to be compared with analyze_cluster_sizes of jammed_network. -/
def cluster_sizes_claim (N : Int) (S : List Pos) : List Nat :=
  let uniq := S.dedup
  let edges := uniq.flatMap (fun p =>
    ((toroidal_neighbors N p).filter (fun q => q ∈ uniq)).map (fun q => (p, q)))
  sort_desc ((connected_components { nodes := uniq, edges := edges }).map List.length)

/-- The gridlock threshold of run_single_simulation_generic
(experiment.py: gridlock_threshold = 50). -/
def gridlock_threshold : Nat := 50

/-- Outcome of one run of the experiment driver, restricted to the gridlock
bookkeeping: whether the run was marked gridlocked, the step index at which
the loop returned, and how many post-warmup metric records had been
collected (the all_metrics_history length). -/
structure RunOut where
  gridlocked : Bool
  stop_step : Nat
  collected : Nat
deriving DecidableEq

/-- The per-step loop of run_single_simulation_generic (experiment.py),
parametrized by the per-tick total movement the simulation produces.  Each
step appends the metric record to all_metrics_history when step is past
warmup, then increments the zero-movement streak when the total movement is
0 (at every step, warmup included) and resets it otherwise, and finally
returns gridlocked when step is past warmup and the streak has reached the
threshold. -/
def run_loop (warmup_steps : Nat) (total_movement : Nat → Nat) :
    Nat → Nat → Nat → Nat → RunOut
  | step, 0, _, collected => { gridlocked := false, stop_step := step, collected := collected }
  | step, fuel + 1, zero_count, collected =>
    let collected2 := if warmup_steps ≤ step then collected + 1 else collected
    let zc := if total_movement step = 0 then zero_count + 1 else 0
    if warmup_steps ≤ step ∧ gridlock_threshold ≤ zc then
      { gridlocked := true, stop_step := step, collected := collected2 }
    else
      run_loop warmup_steps total_movement (step + 1) fuel zc collected2

/-- run_single_simulation_generic gridlock bookkeeping over a whole run of
the given number of steps. -/
def run_single (steps warmup_steps : Nat) (total_movement : Nat → Nat) : RunOut :=
  run_loop warmup_steps total_movement 0 steps 0 0

/-- Follows the wording of the claim (spec section 4.7): the streak counts
only post-warmup zero-movement ticks; warmup ticks do not contribute. -/
def run_loop_claim (warmup_steps : Nat) (total_movement : Nat → Nat) :
    Nat → Nat → Nat → Nat → RunOut
  | step, 0, _, collected => { gridlocked := false, stop_step := step, collected := collected }
  | step, fuel + 1, zero_count, collected =>
    let collected2 := if warmup_steps ≤ step then collected + 1 else collected
    let zc :=
      if warmup_steps ≤ step then
        (if total_movement step = 0 then zero_count + 1 else 0)
      else 0
    if gridlock_threshold ≤ zc then
      { gridlocked := true, stop_step := step, collected := collected2 }
    else
      run_loop_claim warmup_steps total_movement (step + 1) fuel zc collected2

/-- The claim-side driver, written from the words of the spec, to be
compared with run_single. -/
def run_single_claim (steps warmup_steps : Nat) (total_movement : Nat → Nat) : RunOut :=
  run_loop_claim warmup_steps total_movement 0 steps 0 0

/-- The zero-movement streak through tick s inclusive, counted from the
start of the run: the number of consecutive ticks t <= s with zero total
movement ending at s. -/
def zstreak (total_movement : Nat → Nat) : Nat → Nat
  | 0 => if total_movement 0 = 0 then 1 else 0
  | s + 1 => if total_movement (s + 1) = 0 then zstreak total_movement s + 1 else 0

/-- A concrete lattice holding one rotary (cells (3,3),(3,4),(4,3),(4,4))
with a car head at (4,4) and the rightward exit road cell at (4,5); used to
settle the FIXED_DESTINATION rotary claims on explicit inputs. -/
def rot_grid_fun : Pos → Nat := fun p =>
  if p = (3, 3) then INTERSECTION_DRIVE
  else if p = (3, 4) then INTERSECTION_DRIVE
  else if p = (4, 3) then INTERSECTION_DRIVE
  else if p = (4, 4) then CAR_HEAD
  else if p = (4, 5) then HORIZONTAL_ROAD_VALUE_RIGHT
  else if p = (5, 4) then VERTICAL_ROAD_VALUE_RIGHT
  else BLOCKS_VALUE

/-- The background of rot_grid_fun: the cell under the car is the rotary
cell. -/
def rot_layout_fun : Pos → Nat := fun p =>
  if p = (4, 4) then INTERSECTION_DRIVE else rot_grid_fun p

def rot_grid : GridS :=
  { size := 12, grid := rot_grid_fun, road_layout := rot_layout_fun,
    max_speed := 2, rotary_dict := [[(3, 3), (3, 4), (4, 4), (4, 3)]],
    rotary_method := FIXED_DESTINATION }

/-- A rotary car at (4,4) travelling upward under FIXED_DESTINATION whose
committed target (H_LEFT) differs from the road kind of its rightward exit
cell (H_RIGHT at (4,5)); the next ring cell (3,4) is free. -/
def c1_car : CarS :=
  { head_position := (4, 4), road_type := VERTICAL_ROAD_VALUE_RIGHT,
    on_rotary := true, flag := FIXED_DESTINATION,
    road_destination := some HORIZONTAL_ROAD_VALUE_LEFT, max_speed := 2 }

/-- The same rotary car with target H_RIGHT, matching its exit cell. -/
def c1_car_match : CarS :=
  { c1_car with road_destination := some HORIZONTAL_ROAD_VALUE_RIGHT }

/-- A lattice with the same rotary but the car head one cell below the
rotary at (5,4) on the upward lane, the rotary entry cell (4,4) free; used
for the determinism claim. -/
def ent_grid_fun : Pos → Nat := fun p =>
  if p = (3, 3) then INTERSECTION_DRIVE
  else if p = (3, 4) then INTERSECTION_DRIVE
  else if p = (4, 3) then INTERSECTION_DRIVE
  else if p = (4, 4) then INTERSECTION_DRIVE
  else if p = (4, 5) then HORIZONTAL_ROAD_VALUE_RIGHT
  else if p = (5, 4) then CAR_HEAD
  else BLOCKS_VALUE

def ent_layout_fun : Pos → Nat := fun p =>
  if p = (5, 4) then VERTICAL_ROAD_VALUE_RIGHT else ent_grid_fun p

def ent_grid : GridS :=
  { size := 12, grid := ent_grid_fun, road_layout := ent_layout_fun,
    max_speed := 2, rotary_dict := [[(3, 3), (3, 4), (4, 4), (4, 3)]],
    rotary_method := FIXED_DESTINATION }

/-- A FIXED_DESTINATION car one cell below the rotary entry, speed 1. -/
def ent_car : CarS :=
  { head_position := (5, 4), road_type := VERTICAL_ROAD_VALUE_RIGHT,
    on_rotary := false, flag := FIXED_DESTINATION,
    road_destination := none, max_speed := 1 }

/-- Two consecutive ticks of one car: the first may enter a rotary and
commit to the destination drawn there, the second acts on that commitment. -/
def two_tick (c : CarS) (g : GridS) (draw : Nat) : CarS × GridS × Nat :=
  let r1 := Car.move c g draw
  Car.move r1.1 r1.2.1 0

/-- The metric record produced after a tick of the single-car scene:
cars_at_intersections is 1 iff the car head sits on an underlying
intersection cell; the moves vector is the one-element step count. -/
def metrics_of_run (r : CarS × GridS × Nat) : Metrics :=
  get_metrics 8 4 (if r.2.1.road_layout r.1.head_position = INTERSECTION_DRIVE then 1 else 0)
    [r.2.2]

/-- A lattice where the cell in front of a road car is an intersection cell
whose diagonal holds a car head; for the yield-to-rotary claim. -/
def diag_grid_fun : Pos → Nat := fun p =>
  if p = (3, 3) then INTERSECTION_DRIVE
  else if p = (3, 4) then INTERSECTION_DRIVE
  else if p = (4, 3) then CAR_HEAD
  else if p = (4, 4) then INTERSECTION_DRIVE
  else if p = (5, 4) then CAR_HEAD
  else BLOCKS_VALUE

def diag_layout_fun : Pos → Nat := fun p =>
  if p = (4, 3) then INTERSECTION_DRIVE
  else if p = (5, 4) then VERTICAL_ROAD_VALUE_RIGHT
  else diag_grid_fun p

def diag_grid : GridS :=
  { size := 12, grid := diag_grid_fun, road_layout := diag_layout_fun,
    max_speed := 2, rotary_dict := [[(3, 3), (3, 4), (4, 4), (4, 3)]],
    rotary_method := FREE_MOVEMENT }

def diag_car : CarS :=
  { head_position := (5, 4), road_type := VERTICAL_ROAD_VALUE_RIGHT,
    on_rotary := false, flag := FREE_MOVEMENT,
    road_destination := none, max_speed := 2 }

/-- C7: for every car on a road cell whose next cell in its travel
direction holds the intersection value and whose diagonal cell (as computed
by Car.get_diagonal) holds a car head, one update of that car does not enter
the rotary, leaves the car state (in particular its head position and
on_rotary flag) and the grid unchanged, and returns a step count of 0. -/
theorem C7_diagonal_yield (c : CarS) (g : GridS) (d : Nat)
    (hr : c.on_rotary = false)
    (hint2 : get_infront g (next_in_direction g.size c.road_type c.head_position) ∈
      INTERSECTION_CELLS)
    (hdiag : get_diagonal g c.road_type (next_in_direction g.size c.road_type c.head_position) =
      CAR_HEAD) :
    Car.move c g d = (c, g, 0) := by
  have hint3 : get_infront g (next_in_direction g.size c.road_type c.head_position) =
      INTERSECTION_DRIVE := by simpa [INTERSECTION_CELLS] using hint2
  have hmono : move_straight c g d = (false, 0, c, g) := by
    unfold move_straight
    cases hms : c.max_speed with
    | zero =>
      simp [move_straight_loop, move_straight_finish]
    | succ n =>
      simp [move_straight_loop, move_straight_finish, hint3, hdiag,
        INTERSECTION_CELLS, INTERSECTION_DRIVE, CAR_HEAD]
  unfold Car.move
  rw [hr]
  simp [hmono]

/-- Witness for C7_diagonal_yield at the concrete diagonal-blocked scene. -/
theorem C7_witness : Car.move diag_car diag_grid 0 = (diag_car, diag_grid, 0) :=
  C7_diagonal_yield diag_car diag_grid 0 rfl (by decide) (by decide)

/-- C8: in every metric record produced by get_metrics, traffic_flow equals
global_density times average_velocity exactly. -/
theorem C8_traffic_flow (road_cells intersection_cells cars_at_intersections : Nat)
    (moves : List Nat) :
    (get_metrics road_cells intersection_cells cars_at_intersections moves).traffic_flow =
      (get_metrics road_cells intersection_cells cars_at_intersections moves).global_density *
      (get_metrics road_cells intersection_cells cars_at_intersections moves).average_velocity :=
  rfl

/-- C3 counterexample: for the one-car tick with step vector [2], the code
computes average_velocity = 1 (cars that moved over total cars), while the
claim value cells_moved / total is 2. -/
theorem C3_counterexample :
    (get_metrics 1 0 0 [2]).average_velocity = 1 ∧
    average_velocity_claim [2] = 2 ∧ (1 : ℚ) ≠ 2 := by
  refine ⟨by norm_num [get_metrics, List.filter], by norm_num [average_velocity_claim], by norm_num⟩

/-- Follows the amended wording for C3: average velocity is the number of
cars that moved this tick (moves[i] > 0) divided by the total number of
cars, and 0 when there are no cars. -/
def average_velocity_amended (moves : List Nat) : ℚ :=
  if moves.length = 0 then 0
  else (((moves.filter (fun m => 0 < m)).length : Nat) : ℚ) / ((moves.length : Nat) : ℚ)

/-- C3 (amended): for every tick, the metric record average_velocity equals
the number of moving cars divided by the total number of cars (0 when the
total is 0), not the total cells moved divided by the total. -/
theorem C3_amended (road_cells intersection_cells cars_at_intersections : Nat)
    (moves : List Nat) :
    (get_metrics road_cells intersection_cells cars_at_intersections moves).average_velocity =
      average_velocity_amended moves := by
  unfold get_metrics average_velocity_amended
  by_cases h : moves.length = 0 <;> simp [h, Nat.pos_iff_ne_zero]

/-- C9: every grid built by the no-UI simulation driver and by the
experiment driver has max_speed 2 regardless of the configured road maximum
speed, and every car created there with follow_limit = true gets personal
max_speed 2. -/
theorem C9_default_max_speed (grid_size road_length rotary_method road_max_speed
    random_speed : Nat) :
    (simulation_2d_noui_grid grid_size road_length rotary_method road_max_speed).max_speed = 2 ∧
    (experiment_temp_grid grid_size road_length road_max_speed).max_speed = 2 ∧
    car_personal_max_speed true
      (simulation_2d_noui_grid grid_size road_length rotary_method road_max_speed)
      random_speed = 2 ∧
    car_personal_max_speed true
      (experiment_temp_grid grid_size road_length road_max_speed) random_speed = 2 :=
  ⟨rfl, rfl, rfl, rfl⟩

/-- C1 counterexample: a FIXED_DESTINATION rotary car whose exit cell
(4,5) holds H_RIGHT while its committed target is H_LEFT, and whose next
ring cell (3,4) is free (it holds the intersection value, not a car head):
the claim says it advances one ring step, but one update leaves the car
completely unchanged and returns 0. -/
theorem C1_counterexample :
    rot_grid.grid (next_in_direction rot_grid.size c1_car.road_type c1_car.head_position) =
      INTERSECTION_DRIVE ∧
    get_right rot_grid.size c1_car.road_type c1_car.head_position =
      some ((4, 5), HORIZONTAL_ROAD_VALUE_RIGHT) ∧
    c1_car.road_destination = some HORIZONTAL_ROAD_VALUE_LEFT ∧
    rot_grid.grid (4, 5) = HORIZONTAL_ROAD_VALUE_RIGHT ∧
    HORIZONTAL_ROAD_VALUE_RIGHT ≠ HORIZONTAL_ROAD_VALUE_LEFT ∧
    (Car.move c1_car rot_grid 0).1 = c1_car ∧
    (Car.move c1_car rot_grid 0).2.2 = 0 := by
  decide

/-- C1 (amended): under FIXED_DESTINATION, a rotary car whose committed
target is a road kind and whose next ring cell holds the intersection value
or a car head exits exactly when its rightward exit cell value equals the
target; when the exit does not match, the car does not move at all (the
ring-step fallback is gated on the same target match, which the ring cell
value can never satisfy), and the update returns 0 in both cases. -/
theorem C1_amended (c : CarS) (g : GridS) (d dv : Nat) (ep : Pos) (ert : Nat)
    (hrot : c.on_rotary = true)
    (hflag : c.flag = FIXED_DESTINATION)
    (hdest : c.road_destination = some dv)
    (hdv : dv ∈ ROAD_CELLS)
    (hright : get_right g.size c.road_type c.head_position = some (ep, ert))
    (hring : g.grid (next_in_direction g.size c.road_type c.head_position) =
        INTERSECTION_DRIVE ∨
      g.grid (next_in_direction g.size c.road_type c.head_position) = CAR_HEAD) :
    (g.grid ep = dv →
       (Car.move c g d).1.head_position = ep ∧
       (Car.move c g d).1.on_rotary = false ∧
       (Car.move c g d).1.road_type = ert ∧
       (Car.move c g d).2.2 = 0) ∧
    (g.grid ep ≠ dv → Car.move c g d = (c, g, 0)) := by
  have hdv4 : dv = VERTICAL_ROAD_VALUE_LEFT ∨ dv = VERTICAL_ROAD_VALUE_RIGHT ∨
      dv = HORIZONTAL_ROAD_VALUE_LEFT ∨ dv = HORIZONTAL_ROAD_VALUE_RIGHT := by
    simpa [ROAD_CELLS] using hdv
  have hdir : c.road_type = VERTICAL_ROAD_VALUE_RIGHT ∨
      c.road_type = VERTICAL_ROAD_VALUE_LEFT ∨
      c.road_type = HORIZONTAL_ROAD_VALUE_RIGHT ∨
      c.road_type = HORIZONTAL_ROAD_VALUE_LEFT := by
    by_contra hno
    push_neg at hno
    obtain ⟨h1, h2, h3, h4⟩ := hno
    rw [get_right, if_neg h1, if_neg h2, if_neg h3, if_neg h4] at hright
    exact Option.noConfusion hright
  have hmain : ∀ rt : Nat,
      c.road_type = rt →
      get_right g.size rt c.head_position = some (ep, ert) →
      (g.grid ep = dv →
        (Car.move c g d).1.head_position = ep ∧
        (Car.move c g d).1.on_rotary = false ∧
        (Car.move c g d).1.road_type = ert ∧
        (Car.move c g d).2.2 = 0) ∧
      (g.grid ep ≠ dv → Car.move c g d = (c, g, 0)) := by
    intro rt hrt hr2
    have hexit_fail : g.grid ep ≠ dv → exit_rotary c g = (false, c, g) := by
      intro hne
      unfold exit_rotary
      rw [hrt, hr2]
      simp only [get_infront]
      by_cases hmem : g.grid ep ∈ ROAD_CELLS ∨ g.grid ep ∈ INTERSECTION_CELLS
      · have hnothead : g.grid ep ≠ CAR_HEAD := by
          rcases hmem with h | h <;> (intro hh; rw [hh] at h; revert h; decide)
        rw [if_neg (by tauto), if_neg hnothead,
          if_pos ⟨hflag, by rw [hdest]; simpa using hne⟩]
      · push_neg at hmem
        rw [if_pos ⟨hmem.1, hmem.2⟩]
    have hdvne5 : dv ≠ INTERSECTION_DRIVE := by
      rcases hdv4 with h | h | h | h <;> (rw [h]; decide)
    have hturn : ∃ nrt, rotary_turn c.road_type = some nrt := by
      rcases hdir with h | h | h | h
      · exact ⟨HORIZONTAL_ROAD_VALUE_LEFT, by rw [h]; decide⟩
      · exact ⟨HORIZONTAL_ROAD_VALUE_RIGHT, by rw [h]; decide⟩
      · exact ⟨VERTICAL_ROAD_VALUE_RIGHT, by rw [h]; decide⟩
      · exact ⟨VERTICAL_ROAD_VALUE_LEFT, by rw [h]; decide⟩
    obtain ⟨nrt, hturn⟩ := hturn
    have hrotary_fail : move_rotary c g = (false, c, g) := by
      unfold move_rotary
      rw [hturn]
      simp only [get_infront]
      rcases hring with h5 | h6
      · rw [h5]
        rw [if_neg (by decide : ¬(INTERSECTION_DRIVE = CAR_HEAD))]
        rw [if_pos ⟨by rw [hdest]; simp; exact fun h => hdvne5 h.symm, hflag⟩]
      · rw [h6, if_pos rfl]
    constructor
    · intro hcell
      have hexit_ok : exit_rotary c g =
          (true, { c with head_position := ep, road_type := ert, on_rotary := false },
            (set_car_location { c with on_rotary := false } g ep).2) := by
        unfold exit_rotary
        rw [hrt, hr2]
        simp only [get_infront, hcell]
        have h1 : ¬(dv ∉ ROAD_CELLS ∧ dv ∉ INTERSECTION_CELLS) := fun h => h.1 hdv
        have h2 : dv ≠ CAR_HEAD := by
          rcases hdv4 with h | h | h | h <;> (rw [h]; decide)
        have h3 : ¬(c.flag = FIXED_DESTINATION ∧ some dv ≠ c.road_destination) := by
          rw [hdest]; simp
        have h4 : dv ∉ INTERSECTION_CELLS := by
          rcases hdv4 with h | h | h | h <;> (rw [h]; decide)
        rw [if_neg h1, if_neg h2, if_neg h3, if_pos h4]
        simp [set_car_location]
      have hmove : Car.move c g d =
          ({ c with head_position := ep, road_type := ert, on_rotary := false },
            (set_car_location { c with on_rotary := false } g ep).2, 0) := by
        simp [Car.move, hrot, hflag, hexit_ok]
      rw [hmove]
      exact ⟨rfl, rfl, rfl, rfl⟩
    · intro hne
      have hmove : Car.move c g d = (c, g, 0) := by
        simp [Car.move, hrot, hflag, hexit_fail hne, hrotary_fail]
      rw [hmove]
  rcases hdir with h | h | h | h <;> exact hmain _ h (h ▸ hright)

/-- Witness for C1_amended: the same rotary scene with a matching target
H_RIGHT; the car exits to (4,5). -/
theorem C1_witness :
    (Car.move c1_car_match rot_grid 0).1.head_position = (4, 5) ∧
    (Car.move c1_car_match rot_grid 0).1.on_rotary = false ∧
    (Car.move c1_car_match rot_grid 0).1.road_type = HORIZONTAL_ROAD_VALUE_RIGHT ∧
    (Car.move c1_car_match rot_grid 0).2.2 = 0 :=
  (C1_amended c1_car_match rot_grid 0 HORIZONTAL_ROAD_VALUE_RIGHT (4, 5)
    HORIZONTAL_ROAD_VALUE_RIGHT rfl rfl rfl (by decide) (by decide)
    (Or.inl (by decide))).1 (by decide)

/-- C2 (code behavior at the failing input): on rotary entry under
FIXED_DESTINATION the committed target is np.random.choice(ROAD_CELLS)
evaluated after np.random.seed(int(time.time())) (car.py:386-387), so it is
a function of the wall-clock time at which the entry happens, not of the
run seed.  Whenever the draws at two wall-clock times differ as below, the
same car in the same grid ends two ticks later at different head positions
and the tick metric records differ: the metric sequence is not a function
of (config, seed) alone. -/
theorem C2_wall_clock_divergence (draw : Nat → Nat) (t1 t2 : Nat)
    (h1 : draw t1 = HORIZONTAL_ROAD_VALUE_RIGHT)
    (h2 : draw t2 = VERTICAL_ROAD_VALUE_LEFT) :
    (two_tick ent_car ent_grid (draw t1)).1.head_position ≠
      (two_tick ent_car ent_grid (draw t2)).1.head_position ∧
    metrics_of_run (two_tick ent_car ent_grid (draw t1)) ≠
      metrics_of_run (two_tick ent_car ent_grid (draw t2)) := by
  rw [h1, h2]
  refine ⟨by decide, fun heq => ?_⟩
  have hfield := congrArg Metrics.intersection_density heq
  have hH : (metrics_of_run (two_tick ent_car ent_grid
      HORIZONTAL_ROAD_VALUE_RIGHT)).intersection_density = 0 := by
    have h : (two_tick ent_car ent_grid HORIZONTAL_ROAD_VALUE_RIGHT).2.1.road_layout
        (two_tick ent_car ent_grid HORIZONTAL_ROAD_VALUE_RIGHT).1.head_position =
        HORIZONTAL_ROAD_VALUE_RIGHT := by decide
    rw [metrics_of_run, h]
    norm_num [get_metrics, HORIZONTAL_ROAD_VALUE_RIGHT, INTERSECTION_DRIVE]
  have hV : (metrics_of_run (two_tick ent_car ent_grid
      VERTICAL_ROAD_VALUE_LEFT)).intersection_density = 1 / 12 := by
    have h : (two_tick ent_car ent_grid VERTICAL_ROAD_VALUE_LEFT).2.1.road_layout
        (two_tick ent_car ent_grid VERTICAL_ROAD_VALUE_LEFT).1.head_position =
        INTERSECTION_DRIVE := by decide
    rw [metrics_of_run, h]
    norm_num [get_metrics]
  rw [hH, hV] at hfield
  norm_num at hfield

/-- Witness for C2_wall_clock_divergence at a concrete draw function and
two concrete times. -/
theorem C2_witness :
    (two_tick ent_car ent_grid
      ((fun t => if t = 0 then HORIZONTAL_ROAD_VALUE_RIGHT else VERTICAL_ROAD_VALUE_LEFT) 0)).1.head_position ≠
      (two_tick ent_car ent_grid
        ((fun t => if t = 0 then HORIZONTAL_ROAD_VALUE_RIGHT else VERTICAL_ROAD_VALUE_LEFT) 1)).1.head_position ∧
    metrics_of_run (two_tick ent_car ent_grid
      ((fun t => if t = 0 then HORIZONTAL_ROAD_VALUE_RIGHT else VERTICAL_ROAD_VALUE_LEFT) 0)) ≠
      metrics_of_run (two_tick ent_car ent_grid
        ((fun t => if t = 0 then HORIZONTAL_ROAD_VALUE_RIGHT else VERTICAL_ROAD_VALUE_LEFT) 1)) :=
  C2_wall_clock_divergence
    (fun t => if t = 0 then HORIZONTAL_ROAD_VALUE_RIGHT else VERTICAL_ROAD_VALUE_LEFT)
    0 1 rfl rfl

/-- C10: constructing a Car at a position whose dynamic cell is neither a
road cell nor an intersection cell yields the ValueError with the grid
unchanged; at every drivable position the constructor writes CAR_HEAD at
that position, changes no other cell, and sets on_rotary true iff the cell
held the intersection value. -/
theorem C10_car_ctor (g : GridS) (pos : Pos) (frm fl : Bool) (rs : Nat) :
    (g.grid pos ∉ ROAD_CELLS ∧ g.grid pos ∉ INTERSECTION_CELLS →
       Car.init g pos frm fl rs = (Except.error "Invalid road type for the car.", g)) ∧
    (g.grid pos ∈ ROAD_CELLS ∨ g.grid pos ∈ INTERSECTION_CELLS →
       ∃ c : CarS,
         Car.init g pos frm fl rs =
           (Except.ok c, { g with grid := set_cell g.grid pos CAR_HEAD }) ∧
         (Car.init g pos frm fl rs).2.grid pos = CAR_HEAD ∧
         (∀ q, q ≠ pos → (Car.init g pos frm fl rs).2.grid q = g.grid q) ∧
         c.on_rotary = decide (g.grid pos ∈ INTERSECTION_CELLS) ∧
         c.head_position = pos ∧ c.road_type = g.grid pos) := by
  constructor
  · intro h
    unfold Car.init
    rw [if_pos h]
  · intro h
    have hno : ¬(g.grid pos ∉ ROAD_CELLS ∧ g.grid pos ∉ INTERSECTION_CELLS) := by tauto
    refine ⟨{ head_position := pos, road_type := g.grid pos,
              on_rotary := decide (g.grid pos ∈ INTERSECTION_CELLS),
              flag := if frm then FREE_MOVEMENT else FIXED_DESTINATION,
              road_destination := none,
              max_speed := if fl then g.max_speed else rs }, ?_, ?_, ?_, rfl, rfl, rfl⟩
    · unfold Car.init
      rw [if_neg hno]
    · unfold Car.init
      rw [if_neg hno]
      simp [set_cell]
    · intro q hq
      unfold Car.init
      rw [if_neg hno]
      simp [set_cell, hq]

/-- Witness for C10_car_ctor: both branches at explicit inputs -- a BLOCK
cell (0,0) of the rotary scene rejects the car and leaves the grid
untouched; the road cell (5,4) (value V_RIGHT) accepts it. -/
theorem C10_witness :
    Car.init rot_grid (0, 0) true true 3 =
      (Except.error "Invalid road type for the car.", rot_grid) ∧
    ∃ c : CarS,
      Car.init rot_grid (5, 4) true true 3 =
        (Except.ok c, { rot_grid with grid := set_cell rot_grid.grid (5, 4) CAR_HEAD }) ∧
      (Car.init rot_grid (5, 4) true true 3).2.grid (5, 4) = CAR_HEAD ∧
      (∀ q, q ≠ ((5 : Int), (4 : Int)) →
        (Car.init rot_grid (5, 4) true true 3).2.grid q = rot_grid.grid q) ∧
      c.on_rotary = decide (rot_grid.grid (5, 4) ∈ INTERSECTION_CELLS) ∧
      c.head_position = ((5 : Int), (4 : Int)) ∧ c.road_type = rot_grid.grid (5, 4) :=
  ⟨(C10_car_ctor rot_grid (0, 0) true true 3).1 (by decide),
   (C10_car_ctor rot_grid (5, 4) true true 3).2 (by decide)⟩

/-- A foldl preserves any invariant its step preserves. -/
theorem foldl_preserve {α β : Type} (P : β → Prop) (f : β → α → β) :
    ∀ (l : List α) (b : β), P b → (∀ b a, P b → P (f b a)) → P (l.foldl f b) := by
  intro l
  induction l with
  | nil => intro b hb _; exact hb
  | cons a l ih => intro b hb hstep; exact ih (f b a) (hstep b a hb) hstep

/-- The shape of every rotary ring appended by create_intersections: the
four corners of a 2 by 2 block in ring order. -/
def ring_shape (r : List Pos) : Prop :=
  ∃ i j : Int, r = [(i, j), (i, j + 1), (i + 1, j + 1), (i + 1, j)]

theorem create_intersections_rings (size blocks : Nat) (g0 : Pos → Nat) :
    ∀ r ∈ (create_intersections size blocks g0).2, ring_shape r := by
  unfold create_intersections
  apply foldl_preserve (fun acc : (Pos → Nat) × List (List Pos) =>
    ∀ r ∈ acc.2, ring_shape r)
  · intro r hr
    simp at hr
  · intro acc i hacc
    apply foldl_preserve (fun acc : (Pos → Nat) × List (List Pos) =>
      ∀ r ∈ acc.2, ring_shape r)
    · exact hacc
    · intro acc2 j hacc2 r hr
      simp only [List.mem_append, List.mem_singleton] at hr
      rcases hr with hr | hr
      · exact hacc2 r hr
      · exact ⟨(i : Int), (j : Int), by rw [hr]⟩

/-- C5 counterexample: the pair N = 5, B = 3 violates every geometry
precondition of the spec, the spec-worded builder therefore rejects it, yet
Grid.init constructs a grid normally: BadGeometry is never raised.  The
constructed grid even carries rotary rings reaching outside the lattice
(coordinate 5 on a size-5 grid). -/
theorem C5_counterexample :
    ¬ geom_valid 5 3 ∧
    grid_build_spec 5 3 0 2 = none ∧
    (Grid.init 5 3 0 2).grid = (Grid.init 5 3 0 2).road_layout ∧
    (Grid.init 5 3 0 2).rotary_dict =
      [[(1, 1), (1, 2), (2, 2), (2, 1)], [(1, 4), (1, 5), (2, 5), (2, 4)],
       [(4, 1), (4, 2), (5, 2), (5, 1)], [(4, 4), (4, 5), (5, 5), (5, 4)]] ∧
    (Grid.init 5 3 0 2).grid (1, 1) = INTERSECTION_DRIVE ∧
    (Grid.init 5 3 0 2).grid (0, 0) = BLOCKS_VALUE := by
  refine ⟨by decide, ?_, rfl, by decide, by decide, by decide⟩
  rw [grid_build_spec, if_neg (by decide)]

/-- C5 (amended): Grid construction performs no validation of its
arguments; for every argument tuple it builds the layout, initializes the
dynamic grid equal to the layout, and computes the rotary rings, each of
which is the 2 by 2 corner cycle of some crossing. -/
theorem C5_amended (N B rm ms : Nat) :
    (Grid.init N B rm ms).grid = (Grid.init N B rm ms).road_layout ∧
    ∀ r ∈ (Grid.init N B rm ms).rotary_dict, ring_shape r := by
  refine ⟨rfl, ?_⟩
  intro r hr
  exact create_intersections_rings N B _ r hr

/-- Witness for C5_amended at N = 12, B = 6 and the first rotary ring. -/
theorem C5_witness :
    (Grid.init 12 6 0 2).grid = (Grid.init 12 6 0 2).road_layout ∧
    ring_shape [((3 : Int), (3 : Int)), (3, 4), (4, 4), (4, 3)] :=
  ⟨(C5_amended 12 6 0 2).1, (C5_amended 12 6 0 2).2 _ (by decide)⟩

/-- C4 counterexample: with 100 steps, warmup 10 and zero movement on every
tick, the driver stops gridlocked at step 49 (its streak counted the ten
warmup ticks), while the claimed rule -- streak over post-warmup ticks only,
stop when it reaches 50 -- stops at step 59. -/
theorem C4_counterexample :
    run_single 100 10 (fun _ => 0) =
      { gridlocked := true, stop_step := 49, collected := 40 } ∧
    run_single_claim 100 10 (fun _ => 0) =
      { gridlocked := true, stop_step := 59, collected := 50 } ∧
    (49 : Nat) ≠ 59 :=
  ⟨by decide, by decide, by decide⟩

/-- Complete characterization of the driver loop: entering at a given step
with the streak and collected counters in their invariant states, the loop
gridlocks within its remaining fuel iff some reachable step is past warmup
with the from-start zero streak at or above the threshold, and on gridlock
it stops at the first such step, having collected one record per
post-warmup tick so far. -/
theorem run_loop_char (warm : Nat) (tm : Nat → Nat) :
    ∀ (fuel step zc0 : Nat),
      zc0 = (if step = 0 then 0 else zstreak tm (step - 1)) →
      (∀ t, t < step → ¬(warm ≤ t ∧ gridlock_threshold ≤ zstreak tm t)) →
      (((run_loop warm tm step fuel zc0 (step - warm)).gridlocked = true ↔
         ∃ s, step ≤ s ∧ s < step + fuel ∧ warm ≤ s ∧
           gridlock_threshold ≤ zstreak tm s) ∧
       ((run_loop warm tm step fuel zc0 (step - warm)).gridlocked = true →
         warm ≤ (run_loop warm tm step fuel zc0 (step - warm)).stop_step ∧
         gridlock_threshold ≤
           zstreak tm (run_loop warm tm step fuel zc0 (step - warm)).stop_step ∧
         (∀ t, t < (run_loop warm tm step fuel zc0 (step - warm)).stop_step →
           ¬(warm ≤ t ∧ gridlock_threshold ≤ zstreak tm t)) ∧
         (run_loop warm tm step fuel zc0 (step - warm)).collected =
           (run_loop warm tm step fuel zc0 (step - warm)).stop_step + 1 - warm)) := by
  intro fuel
  induction fuel with
  | zero =>
    intro step zc0 _ _
    refine ⟨⟨fun h => by simp [run_loop] at h, ?_⟩, fun h => by simp [run_loop] at h⟩
    rintro ⟨s, h1, h2, _⟩
    omega
  | succ fuel ih =>
    intro step zc0 hzc hmin
    have hz : (if tm step = 0 then zc0 + 1 else 0) = zstreak tm step := by
      cases step with
      | zero => rw [hzc]; simp [zstreak]
      | succ s =>
        rw [hzc]
        simp only [Nat.succ_ne_zero, if_false, Nat.succ_sub_one, zstreak]
    have hcol : (if warm ≤ step then (step - warm) + 1 else (step - warm)) =
        (step + 1) - warm := by
      split_ifs with h <;> omega
    by_cases htrig : warm ≤ step ∧ gridlock_threshold ≤ (if tm step = 0 then zc0 + 1 else 0)
    · have hR : run_loop warm tm step (fuel + 1) zc0 (step - warm) =
          { gridlocked := true, stop_step := step,
            collected := if warm ≤ step then (step - warm) + 1 else (step - warm) } := by
        simp only [run_loop]
        rw [if_pos htrig]
      rw [hR]
      refine ⟨⟨fun _ => ⟨step, le_refl _, by omega, htrig.1, hz ▸ htrig.2⟩, fun _ => rfl⟩,
        fun _ => ⟨htrig.1, hz ▸ htrig.2, fun t ht => hmin t ht, hcol⟩⟩
    · have hR : run_loop warm tm step (fuel + 1) zc0 (step - warm) =
          run_loop warm tm (step + 1) fuel (if tm step = 0 then zc0 + 1 else 0)
            (if warm ≤ step then (step - warm) + 1 else (step - warm)) := by
        simp only [run_loop]
        rw [if_neg htrig]
      have hnotrig : ¬(warm ≤ step ∧ gridlock_threshold ≤ zstreak tm step) := by
        rw [← hz]; exact htrig
      have hmin2 : ∀ t, t < step + 1 → ¬(warm ≤ t ∧ gridlock_threshold ≤ zstreak tm t) := by
        intro t ht
        rcases Nat.lt_succ_iff_lt_or_eq.mp ht with h | h
        · exact hmin t h
        · subst h; exact hnotrig
      have hzc2 : (if tm step = 0 then zc0 + 1 else 0) =
          (if step + 1 = 0 then 0 else zstreak tm (step + 1 - 1)) := by
        simpa using hz
      have hrec := ih (step + 1) (if tm step = 0 then zc0 + 1 else 0) hzc2 hmin2
      rw [hR, hcol]
      refine ⟨⟨fun h => ?_, fun h => ?_⟩, hrec.2⟩
      · obtain ⟨s, a, b, cc, dd⟩ := hrec.1.mp h
        exact ⟨s, by omega, by omega, cc, dd⟩
      · obtain ⟨s, a, b, cc, dd⟩ := h
        have hs : step ≠ s := fun he => hnotrig (he ▸ ⟨cc, dd⟩)
        exact hrec.1.mpr ⟨s, by omega, by omega, cc, dd⟩

/-- C4 (amended): the driver maintains the streak of consecutive
zero-movement ticks counted from the start of the run, warmup included; the
run stops gridlocked iff some step before the step budget is past warmup
with that streak at or above 50, it stops at the first such step, and the
post-warmup metric records collected up to and including that step (one per
tick) are emitted with the result. -/
theorem C4_amended (steps warm : Nat) (tm : Nat → Nat) :
    ((run_single steps warm tm).gridlocked = true ↔
      ∃ s, s < steps ∧ warm ≤ s ∧ gridlock_threshold ≤ zstreak tm s) ∧
    ((run_single steps warm tm).gridlocked = true →
      warm ≤ (run_single steps warm tm).stop_step ∧
      gridlock_threshold ≤ zstreak tm (run_single steps warm tm).stop_step ∧
      (∀ t, t < (run_single steps warm tm).stop_step →
        ¬(warm ≤ t ∧ gridlock_threshold ≤ zstreak tm t)) ∧
      (run_single steps warm tm).collected =
        (run_single steps warm tm).stop_step + 1 - warm) := by
  have h := run_loop_char warm tm steps 0 0 (by simp) (by omega)
  rw [Nat.zero_sub] at h
  unfold run_single
  refine ⟨⟨fun hg => ?_, fun hg => ?_⟩, h.2⟩
  · obtain ⟨s, _, b, cc, dd⟩ := h.1.mp hg
    exact ⟨s, by omega, cc, dd⟩
  · obtain ⟨s, b, cc, dd⟩ := hg
    exact h.1.mpr ⟨s, by omega, by omega, cc, dd⟩

/-- Witness for C4_amended: the all-zero run gridlocks. -/
theorem C4_witness : (run_single 100 10 (fun _ => 0)).gridlocked = true :=
  (C4_amended 100 10 (fun _ => 0)).1.mpr ⟨49, by decide, by decide, by decide⟩

/-- A foldl preserves any invariant preserved by the step at the list
members. -/
theorem foldl_preserve_mem {α β : Type} (P : β → Prop) (f : β → α → β) :
    ∀ (l : List α) (b : β), P b → (∀ b a, a ∈ l → P b → P (f b a)) → P (l.foldl f b) := by
  intro l
  induction l with
  | nil => intro b hb _; exact hb
  | cons a l ih =>
    intro b hb hstep
    exact ih (f b a) (hstep b a (List.mem_cons_self a l) hb)
      (fun b2 a2 ha2 hb2 => hstep b2 a2 (List.mem_cons_of_mem a ha2) hb2)

theorem add_edge_edges_mono (G : NetGraph) (p q : Pos) :
    ∀ e ∈ G.edges, e ∈ (add_edge G p q).edges := by
  intro e he
  unfold add_edge
  dsimp only
  split_ifs with h
  · exact he
  · exact List.mem_append_left _ he

theorem add_edge_self (G : NetGraph) (p q : Pos) :
    (p, q) ∈ (add_edge G p q).edges ∨ (q, p) ∈ (add_edge G p q).edges := by
  unfold add_edge
  dsimp only
  split_ifs with h
  · exact h
  · exact Or.inl (List.mem_append_right _ (List.mem_singleton.mpr rfl))

theorem add_edge_edge_sub (G : NetGraph) (p q : Pos) :
    ∀ e ∈ (add_edge G p q).edges, e ∈ G.edges ∨ e = (p, q) := by
  intro e he
  unfold add_edge at he
  dsimp only at he
  split_ifs at he with h
  · exact Or.inl he
  · rcases List.mem_append.mp he with h2 | h2
    · exact Or.inl h2
    · exact Or.inr (List.mem_singleton.mp h2)

theorem foldl_jn_step_edges_mono (uniq : List Pos) (p : Pos) (l : List Pos)
    (G : NetGraph) (e : Pos × Pos) (he : e ∈ G.edges) :
    e ∈ (l.foldl (jn_step uniq p) G).edges := by
  apply foldl_preserve (fun G : NetGraph => e ∈ G.edges) _ l G he
  intro G2 q hG2
  unfold jn_step
  split_ifs with h
  · exact add_edge_edges_mono G2 p q e hG2
  · exact hG2

theorem foldl_jn_step_est (uniq : List Pos) (p : Pos) :
    ∀ (l : List Pos) (G : NetGraph) (q : Pos), q ∈ l → q ∈ uniq →
      (p, q) ∈ (l.foldl (jn_step uniq p) G).edges ∨
      (q, p) ∈ (l.foldl (jn_step uniq p) G).edges := by
  intro l
  induction l with
  | nil => intro G q hm; cases hm
  | cons a l ih =>
    intro G q hm hq
    rw [List.foldl_cons]
    rcases List.mem_cons.mp hm with h | h
    · subst h
      have hstep : jn_step uniq p G q = add_edge G p q := by
        unfold jn_step; rw [if_pos hq]
      rw [hstep]
      rcases add_edge_self G p q with h1 | h1
      · exact Or.inl (foldl_jn_step_edges_mono uniq p l _ _ h1)
      · exact Or.inr (foldl_jn_step_edges_mono uniq p l _ _ h1)
    · exact ih _ q h hq

theorem foldl_jn_cell_edges_mono (uniq : List Pos) (l : List Pos)
    (G : NetGraph) (e : Pos × Pos) (he : e ∈ G.edges) :
    e ∈ (l.foldl (jn_cell uniq) G).edges := by
  apply foldl_preserve (fun G : NetGraph => e ∈ G.edges) _ l G he
  intro G2 p hG2
  exact foldl_jn_step_edges_mono uniq p (neighbor_checks p) G2 e hG2

theorem jammed_network_edge_complete (S : List Pos) (p q : Pos)
    (hp : p ∈ S.dedup) (hq : q ∈ S.dedup) (hnb : q ∈ neighbor_checks p) :
    (p, q) ∈ (jammed_network S).edges ∨ (q, p) ∈ (jammed_network S).edges := by
  unfold jammed_network
  have main : ∀ (l : List Pos) (G : NetGraph), p ∈ l →
      (p, q) ∈ (l.foldl (jn_cell S.dedup) G).edges ∨
      (q, p) ∈ (l.foldl (jn_cell S.dedup) G).edges := by
    intro l
    induction l with
    | nil => intro G hm; cases hm
    | cons a l ih =>
      intro G hm
      rw [List.foldl_cons]
      rcases List.mem_cons.mp hm with h | h
      · subst h
        have hest := foldl_jn_step_est S.dedup p (neighbor_checks p) G q hnb hq
        rcases hest with h1 | h1
        · exact Or.inl (foldl_jn_cell_edges_mono S.dedup l _ _ h1)
        · exact Or.inr (foldl_jn_cell_edges_mono S.dedup l _ _ h1)
      · exact ih _ h
  exact main S.dedup _ hp

theorem jammed_network_edge_sound (S : List Pos) :
    ∀ e ∈ (jammed_network S).edges,
      e.1 ∈ S.dedup ∧ e.2 ∈ S.dedup ∧ e.2 ∈ neighbor_checks e.1 := by
  unfold jammed_network
  apply foldl_preserve_mem
    (fun G : NetGraph => ∀ e ∈ G.edges, e.1 ∈ S.dedup ∧ e.2 ∈ S.dedup ∧ e.2 ∈ neighbor_checks e.1)
  · intro e he; cases he
  · intro G p hpmem hG
    unfold jn_cell
    apply foldl_preserve_mem
      (fun G : NetGraph => ∀ e ∈ G.edges, e.1 ∈ S.dedup ∧ e.2 ∈ S.dedup ∧ e.2 ∈ neighbor_checks e.1)
    · exact hG
    · intro G2 q hqnb hG2 e he
      unfold jn_step at he
      split_ifs at he with hq
      · rcases add_edge_edge_sub G2 p q e he with h2 | h2
        · exact hG2 e h2
        · rw [h2]
          exact ⟨hpmem, hq, hqnb⟩
      · exact hG2 e he

theorem add_edge_nodes_inv (G : NetGraph)
    (h : ∀ x, x ∈ G.nodes ↔ ∃ y, (x, y) ∈ G.edges ∨ (y, x) ∈ G.edges) (p q : Pos) :
    ∀ x, x ∈ (add_edge G p q).nodes ↔
      ∃ y, (x, y) ∈ (add_edge G p q).edges ∨ (y, x) ∈ (add_edge G p q).edges := by
  intro x
  unfold add_edge
  by_cases hpres : (p, q) ∈ G.edges ∨ (q, p) ∈ G.edges
  · have hp : p ∈ G.nodes := (h p).mpr
      (by rcases hpres with h1 | h1; exacts [⟨q, Or.inl h1⟩, ⟨q, Or.inr h1⟩])
    have hq : q ∈ G.nodes := (h q).mpr
      (by rcases hpres with h1 | h1; exacts [⟨p, Or.inr h1⟩, ⟨p, Or.inl h1⟩])
    simp only [if_pos hpres, if_pos hp, if_pos hq]
    exact h x
  · simp only [if_neg hpres]
    have hnodes : ∀ z : Pos,
        (z ∈ (if q ∈ (if p ∈ G.nodes then G.nodes else G.nodes ++ [p]) then
            (if p ∈ G.nodes then G.nodes else G.nodes ++ [p])
          else (if p ∈ G.nodes then G.nodes else G.nodes ++ [p]) ++ [q])) ↔
        (z ∈ G.nodes ∨ z = p ∨ z = q) := by
      intro z
      split_ifs with h1 h2 h2
      · constructor
        · exact fun hz => Or.inl hz
        · rintro (hz | hz | hz)
          exacts [hz, hz ▸ h1, hz ▸ h2]
      · simp only [List.mem_append, List.mem_singleton]
        constructor
        · rintro (hz | hz)
          exacts [Or.inl hz, Or.inr (Or.inr hz)]
        · rintro (hz | hz | hz)
          exacts [Or.inl hz, Or.inl (hz ▸ h1), Or.inr hz]
      · simp only [List.mem_append, List.mem_singleton]
        constructor
        · rintro (hz | hz)
          exacts [Or.inl hz, Or.inr (Or.inl hz)]
        · rintro (hz | hz | hz)
          · exact Or.inl hz
          · exact Or.inr hz
          · rcases List.mem_append.mp h2 with hqq | hqq
            · exact Or.inl (hz ▸ hqq)
            · exact Or.inr (hz ▸ List.mem_singleton.mp hqq)
      · simp only [List.mem_append, List.mem_singleton]
        constructor
        · rintro ((hz | hz) | hz)
          exacts [Or.inl hz, Or.inr (Or.inl hz), Or.inr (Or.inr hz)]
        · rintro (hz | hz | hz)
          exacts [Or.inl (Or.inl hz), Or.inl (Or.inr hz), Or.inr hz]
    rw [hnodes x]
    constructor
    · rintro (hx | hx | hx)
      · obtain ⟨y, hy⟩ := (h x).mp hx
        rcases hy with hy | hy
        · exact ⟨y, Or.inl (List.mem_append_left _ hy)⟩
        · exact ⟨y, Or.inr (List.mem_append_left _ hy)⟩
      · exact ⟨q, Or.inl (List.mem_append_right _ (by rw [hx]; exact List.mem_singleton.mpr rfl))⟩
      · exact ⟨p, Or.inr (List.mem_append_right _ (by rw [hx]; exact List.mem_singleton.mpr rfl))⟩
    · rintro ⟨y, hy | hy⟩
      · rcases List.mem_append.mp hy with h2 | h2
        · exact Or.inl ((h x).mpr ⟨y, Or.inl h2⟩)
        · have := List.mem_singleton.mp h2
          have hxp : x = p := congrArg Prod.fst this
          exact Or.inr (Or.inl hxp)
      · rcases List.mem_append.mp hy with h2 | h2
        · exact Or.inl ((h x).mpr ⟨y, Or.inr h2⟩)
        · have := List.mem_singleton.mp h2
          have hxq : x = q := congrArg Prod.snd this
          exact Or.inr (Or.inr hxq)

theorem jammed_network_nodes_inv (S : List Pos) :
    ∀ x, x ∈ (jammed_network S).nodes ↔
      ∃ y, (x, y) ∈ (jammed_network S).edges ∨ (y, x) ∈ (jammed_network S).edges := by
  unfold jammed_network
  apply foldl_preserve
    (fun G : NetGraph => ∀ x, x ∈ G.nodes ↔ ∃ y, (x, y) ∈ G.edges ∨ (y, x) ∈ G.edges)
  · intro x
    constructor
    · intro hx; cases hx
    · rintro ⟨y, hy | hy⟩ <;> cases hy
  · intro G p hG
    unfold jn_cell
    apply foldl_preserve
      (fun G : NetGraph => ∀ x, x ∈ G.nodes ↔ ∃ y, (x, y) ∈ G.edges ∨ (y, x) ∈ G.edges)
    · exact hG
    · intro G2 q hG2
      unfold jn_step
      split_ifs with hq
      · exact add_edge_nodes_inv G2 hG2 p q
      · exact hG2

theorem neighbor_checks_symm (p q : Pos) :
    q ∈ neighbor_checks p ↔ p ∈ neighbor_checks q := by
  simp only [neighbor_checks, List.mem_cons, List.mem_singleton, List.not_mem_nil,
    or_false, Prod.ext_iff]
  omega

instance : IsTotal Nat (fun a b => b ≤ a) := ⟨fun a b => Nat.le_total b a⟩

instance : IsTrans Nat (fun a b => b ≤ a) := ⟨fun _ _ _ h1 h2 => le_trans h2 h1⟩

/-- C6 counterexample: jammed cells (0,0) and (2,0) on a size-3 torus are
toroidally adjacent, so the claim-worded analyzer reports one cluster of
size 2; the code uses unwrapped adjacency and builds an empty graph, so it
returns no cluster at all. -/
theorem C6_counterexample :
    analyze_cluster_sizes (jammed_network [((0 : Int), (0 : Int)), (2, 0)]) = [] ∧
    cluster_sizes_claim 3 [((0 : Int), (0 : Int)), (2, 0)] = [2] ∧
    ([] : List Nat) ≠ [2] :=
  ⟨by decide, by decide, by decide⟩

/-- C6 (amended): the jam-cluster analyzer builds the undirected 4-neighbor
graph over the deduplicated jammed cells with NON-toroidal adjacency (no
modulo on neighbor coordinates): an edge joins p and q exactly when both are
jammed and q is an unwrapped unit neighbor of p, the node set is exactly the
jammed cells with at least one jammed unwrapped neighbor (isolated jammed
cells are absent from the graph and from the component list), and the
returned component-size list is sorted in descending order. -/
theorem C6_amended (S : List Pos) :
    (∀ p q, ((p, q) ∈ (jammed_network S).edges ∨ (q, p) ∈ (jammed_network S).edges) ↔
      (p ∈ S.dedup ∧ q ∈ S.dedup ∧ q ∈ neighbor_checks p)) ∧
    (∀ p, p ∈ (jammed_network S).nodes ↔
      (p ∈ S.dedup ∧ ∃ q, q ∈ S.dedup ∧ q ∈ neighbor_checks p)) ∧
    List.Sorted (fun a b => b ≤ a) (analyze_cluster_sizes (jammed_network S)) := by
  have hedge : ∀ p q,
      ((p, q) ∈ (jammed_network S).edges ∨ (q, p) ∈ (jammed_network S).edges) ↔
      (p ∈ S.dedup ∧ q ∈ S.dedup ∧ q ∈ neighbor_checks p) := by
    intro p q
    constructor
    · rintro (h | h)
      · exact jammed_network_edge_sound S _ h
      · obtain ⟨h1, h2, h3⟩ := jammed_network_edge_sound S _ h
        exact ⟨h2, h1, (neighbor_checks_symm p q).mpr h3⟩
    · rintro ⟨h1, h2, h3⟩
      exact jammed_network_edge_complete S p q h1 h2 h3
  refine ⟨hedge, ?_, ?_⟩
  · intro p
    rw [jammed_network_nodes_inv S p]
    constructor
    · rintro ⟨y, hy⟩
      obtain ⟨h1, h2, h3⟩ := (hedge p y).mp hy
      exact ⟨h1, y, h2, h3⟩
    · rintro ⟨h1, y, h2, h3⟩
      exact ⟨y, (hedge p y).mpr ⟨h1, h2, h3⟩⟩
  · exact List.sorted_insertionSort _ _

/-- Witness for C6_amended: two vertically adjacent jammed cells produce
the edge. -/
theorem C6_witness :
    (((0 : Int), (0 : Int)), ((1 : Int), (0 : Int))) ∈
        (jammed_network [((0 : Int), (0 : Int)), (1, 0)]).edges ∨
      (((1 : Int), (0 : Int)), ((0 : Int), (0 : Int))) ∈
        (jammed_network [((0 : Int), (0 : Int)), (1, 0)]).edges :=
  ((C6_amended [((0 : Int), (0 : Int)), (1, 0)]).1 (0, 0) (1, 0)).mpr
    ⟨by decide, by decide, by decide⟩

end TrafficSim
